import Mathlib

/-! # nola: the invocation path of the virtual-actor environment

A shallow embedding of `virtual/errs.go`, `virtual/environment.go`,
`virtual/server.go` and the host-function router of `virtual/wazero.go`.

Conventions of the embedding:

* a Go `[]byte` is a `List UInt8`; the nil slice and the empty slice are both `[]`;
* a Go `error` is a value of `error`, whose constructor `error.nil` is the nil
  interface value, so `err != nil` reads `err ≠ error.nil`;
* a Go call returning `(x, err)` returns a pair here;
* the collaborators that the code reaches through an interface or through a
  field whose code is elsewhere (the registry, the activation cache, the
  environment seen by the HTTP server) are records of state-passing functions
  over a state `σ`; every call into one of them is appended to a log, so that
  "is called" and "is not called" are statements about the log;
* `context.Context` carries deadlines only, except for the actor ID read by
  the host-function router, which is an explicit argument.
-/

namespace Nola

/-- A Go byte slice. -/
abbrev Bytes := List UInt8

/-- The conversion `[]byte(s)`: the UTF-8 encoding of a string. -/
def stringBytes (s : String) : Bytes :=
  s.data.flatMap String.utf8EncodeChar

/-! ## Errors (`virtual/errs.go` and the parts of `errors`/`fmt` it relies on) -/

/-- A value of the Go interface type `error`.

* `nil`: the nil interface value;
* `errorString s`: what `errors.New(s)` and a `fmt.Errorf` without `%w` build;
* `wrapError msg err`: what `fmt.Errorf` with one `%w` operand builds: the
  formatted text and the wrapped error, returned by `Unwrap`;
* `BlacklistedActivationErr err serverID`: the struct of `errs.go`. -/
inductive error where
  | nil
  | errorString (s : String)
  | wrapError (msg : String) (err : error)
  | BlacklistedActivationErr (err : error) (serverID : String)
  deriving DecidableEq, Repr

namespace error

/-- The method `Error()`. `none` is the run-time panic of calling a method on a
nil interface value, which `BlacklistedActivationErr.Error` reaches when its
inner error is nil. -/
def Error : error → Option String
  | .nil => none
  | .errorString s => some s
  | .wrapError msg _ => some msg
  | .BlacklistedActivationErr err serverID =>
    match err.Error with
    | some text => some ("BlacklistedActivationError(ServerID:" ++ serverID ++ "): " ++ text)
    | none => none

/-- Whether the dynamic type of the value is `BlacklistedActivationErr`, the type
assertion `target.(BlacklistedActivationErr)`. No pointer to the struct is an
`error` here, so `target.(*BlacklistedActivationErr)` always fails. -/
def isBlacklistedActivationErr : error → Bool
  | .BlacklistedActivationErr _ _ => true
  | _ => false

/-- The method `BlacklistedActivationErr.Is(target)`. -/
def BlacklistedActivationErr_Is (target : error) : Bool :=
  if target = .nil then false
  else
    let ok1 := false
    let ok2 := target.isBlacklistedActivationErr
    ok1 || ok2

/-- The loop of `errors.Is` for a comparable target: equality, then the `Is`
method where the dynamic type has one (only `BlacklistedActivationErr` does),
then `Unwrap` where the dynamic type has one (only the `fmt` wrapper does),
stopping on a nil `Unwrap`. -/
def is : error → error → Bool
  | .nil, _ => false
  | .errorString s, target => decide (error.errorString s = target)
  | .wrapError msg err, target =>
    decide (error.wrapError msg err = target) ||
      (match err with
       | .nil => false
       | e => is e target)
  | .BlacklistedActivationErr err serverID, target =>
    decide (error.BlacklistedActivationErr err serverID = target) ||
      BlacklistedActivationErr_Is target

end error

/-- The function `errors.Is`. Every dynamic type of `error` is comparable. -/
def errors_Is (err target : error) : Bool :=
  if err = .nil ∨ target = .nil then decide (err = target)
  else error.is err target

/-- `NewBlacklistedActivationError` creates a new BlacklistedActivationErr. -/
def NewBlacklistedActivationError (err : error) (serverID : String) : error :=
  .BlacklistedActivationErr err serverID

/-- The zero value `BlacklistedActivationErr{}`. -/
def zeroBlacklistedActivationErr : error :=
  .BlacklistedActivationErr .nil ""

/-- `IsBlacklistedActivationError` returns a boolean indicating whether the error
was caused by the actor being blacklisted from being activated on the server. -/
def IsBlacklistedActivationError (err : error) : Bool :=
  errors_Is err zeroBlacklistedActivationErr

/-- The constant `http.StatusGone`. -/
def http_StatusGone : Int := 410

/-- The type assertion `err.(HTTPError)` followed by `HTTPStatusCode()`: `none`
when the dynamic type does not implement `HTTPError`. -/
def HTTPStatusCode? : error → Option Int
  | .BlacklistedActivationErr _ _ => some http_StatusGone
  | _ => none

/-- The method `BlacklistedActivationErr.ServerID()`. -/
def ServerID? : error → Option String
  | .BlacklistedActivationErr _ serverID => some serverID
  | _ => none

/-- The map `statusCodeToErrorWrapper`: `none` where the map has no entry. -/
def statusCodeToErrorWrapper (statusCode : Int) : Option (error → String → error) :=
  if statusCode = 410 then some NewBlacklistedActivationError else none

/-- What `fmt` prints for an error operand of `%w`: the text of `Error()`, and
the recovered panic when `Error()` panics. -/
def fmtErrorOperand (err : error) : String :=
  match err.Error with
  | some text => text
  | none =>
    "%!v(PANIC=Error method: runtime error: invalid memory address or nil pointer dereference)"

/-- The call `fmt.Errorf(msgPrefix + "%w" + msgSuffix, err)`: wraps a non-nil error; a nil
operand is a bad verb and nothing is wrapped. -/
def Errorf_w (msgPrefix : String) (err : error) (msgSuffix : String) : error :=
  match err with
  | .nil => .errorString (msgPrefix ++ "%!w(<nil>)" ++ msgSuffix)
  | e => .wrapError (msgPrefix ++ fmtErrorOperand e ++ msgSuffix) e

/-- Wrapping `n` times with `fmt.Errorf("...%w", err)`, the `i`-th time under
the prefix `msgPrefix i`. -/
def wrapTimes (msgPrefix : Nat → String) : Nat → error → error
  | 0, err => err
  | n + 1, err => Errorf_w (msgPrefix n) (wrapTimes msgPrefix n err) ""

/-- Whether a `BlacklistedActivationErr` is on the chain that `Unwrap` walks
from the error, the error itself included. -/
def unwrapChainHasBlacklisted : error → Bool
  | .nil => false
  | .errorString _ => false
  | .wrapError _ err => unwrapChainHasBlacklisted err
  | .BlacklistedActivationErr _ _ => true

/-! ## References and collaborators -/

/-- Modelled from the spec: the reference type of package `types`, which is not
among the sources: `type ∈ \x7bLocal, RemoteHTTP\x7d`, a tagged variant open to
future variants (`other`). -/
inductive ReferenceType where
  | ReferenceTypeLocal
  | ReferenceTypeRemoteHTTP
  | other (tag : String)
  deriving DecidableEq, Repr

/-- Modelled from the spec: the `%v` rendering of a reference type, of package
`types`, which is not among the sources; each variant prints as its name. -/
def ReferenceType.format : ReferenceType → String
  | .ReferenceTypeLocal => "Local"
  | .ReferenceTypeRemoteHTTP => "RemoteHTTP"
  | .other tag => tag

/-- Modelled from the spec: `types.ActorReference`, of package `types`, which is
not among the sources: `\x7bnamespace, actorID, moduleID, serverID, address,
generation, type\x7d`. -/
structure ActorReference where
  Namespace : String
  ActorID : String
  ModuleID : String
  ServerID : String
  Address : String
  Generation : Nat
  Type_ : ReferenceType
  deriving DecidableEq, Repr

/-- A call into a collaborator, as recorded in the log. -/
inductive Call where
  | EnsureActivation (ns actorID : String)
  | BlacklistServer (serverID actorID : String)
  | ActorKVGet (ns actorID : String) (key : Bytes)
  | ActorKVPut (ns actorID : String) (key value : Bytes)
  | CreateActor (ns actorID moduleID : String)
  | activationsInvoke (reference : ActorReference) (operation : String) (payload : Bytes)
  | EnvironmentInvoke (ns actorID operation : String) (payload : Bytes)
  | EnvironmentInvokeActor (ns actorID operation : String) (payload : Bytes)
  | AfterFunc (afterMillis : Int) (ns actorID operation : String) (payload : Bytes)
  | ActorInvoke (operation : String) (payload : Bytes)
  deriving DecidableEq, Repr

/-- The collaborators: their state and the log of the calls made into them,
oldest first. -/
structure World (σ : Type) where
  state : σ
  calls : List Call

/-- The part of the interface `registry.Registry` that the code calls. -/
structure Registry (σ : Type) where
  EnsureActivation : String → String → σ → (List ActorReference × error) × σ
  ActorKVGet : String → String → Bytes → σ → (Bytes × Bool × error) × σ
  ActorKVPut : String → String → Bytes → Bytes → σ → error × σ
  CreateActor : String → String → String → σ → error × σ
  BlacklistServer : String → String → σ → error × σ

/-- The activation cache, field `activations` of the environment; its code is not
among the sources, and `invoke` is the one method the environment calls. -/
structure activations (σ : Type) where
  invoke : ActorReference → String → Bytes → σ → (Bytes × error) × σ

/-- Runs a collaborator's method on the state and appends the call to the log. -/
def World.call {σ α : Type} (w : World σ) (c : Call) (f : σ → α × σ) : α × World σ :=
  let out := f w.state
  (out.1, ⟨out.2, w.calls ++ [c]⟩)

/-! ## The environment (`virtual/environment.go`) -/

/-- The struct `environment`. -/
structure environment (σ : Type) where
  activations : activations σ
  serverID : String
  registry : Registry σ

namespace environment

variable {σ : Type}

/-- The method `environment.InvokeLocal`. -/
def InvokeLocal (r : environment σ) (serverID : String) (reference : ActorReference)
    (operation : String) (payload : Bytes) (w : World σ) : (Bytes × error) × World σ :=
  if serverID ≠ r.serverID then
    (([], .errorString ("request for serverID: " ++ serverID ++ " received by server: "
      ++ r.serverID ++ ", cannot fullfil")), w)
  else
    w.call (.activationsInvoke reference operation payload)
      (r.activations.invoke reference operation payload)

/-- The method `environment.invokeReferences`; the slice is indexed at 0, so its
caller owes that it is not empty. -/
def invokeReferences (r : environment σ) (references : List ActorReference)
    (h : references ≠ []) (operation : String) (payload : Bytes) (w : World σ) :
    (Bytes × error) × World σ :=
  let reference := references.head h
  match reference.Type_ with
  | .ReferenceTypeLocal => r.InvokeLocal r.serverID reference operation payload w
  | t =>
    (([], .errorString ("reference for actor: " ++ reference.ActorID
      ++ " has unhandled type: " ++ t.format)), w)

/-- The method `environment.Invoke`. -/
def Invoke (r : environment σ) (ns actorID operation : String) (payload : Bytes)
    (w : World σ) : (Bytes × error) × World σ :=
  let out := w.call (.EnsureActivation ns actorID) (r.registry.EnsureActivation ns actorID)
  let references := out.1.1
  let err := out.1.2
  if err ≠ .nil then
    (([], Errorf_w ("error ensuring activation of actor: " ++ actorID ++ " in registry: ") err
      ""), out.2)
  else if h : references.length = 0 then
    (([], .errorString
      ("[invariant violated] ensureActivation() success with 0 references for actor ID: "
        ++ actorID)), out.2)
  else
    r.invokeReferences references (fun h0 => h (by rw [h0]; rfl)) operation payload out.2

end environment

/-! ## Decoders whose code is elsewhere -/

/-- The struct `invokeRequest` of `server.go`. -/
structure invokeRequest where
  Namespace : String
  ActorID : String
  Operation : String
  Payload : Bytes
  deriving DecidableEq, Repr

/-- Modelled from the spec: `wapcutils.CreateActorRequest`, of package
`wapcutils`, which is not among the sources: JSON `\x7bactor_id, module_id?\x7d`. -/
structure CreateActorRequest where
  ActorID : String
  ModuleID : String
  deriving DecidableEq, Repr

/-- Modelled from the spec: `wapcutils.InvokeActorRequest`, of package
`wapcutils`, which is not among the sources: JSON `\x7bactor_id, operation,
payload\x7d`. -/
structure InvokeActorRequest where
  ActorID : String
  Operation : String
  Payload : Bytes
  deriving DecidableEq, Repr

/-- Modelled from the spec: `wapcutils.ScheduleInvocationRequest`, of package
`wapcutils`, which is not among the sources: JSON `\x7bafter_millis, invoke:
\x7bactor_id?, operation, payload\x7d\x7d`. -/
structure ScheduleInvocationRequest where
  Invoke : InvokeActorRequest
  AfterMillis : Int
  deriving DecidableEq, Repr

/-- The decoding and printing functions that the code takes from `encoding/json`,
`fmt` and `wapcutils`, none of which is among the sources. Each decoder returns
the decoded value and an error, nil on success. -/
structure Codecs where
  UnmarshalInvokeRequest : Bytes → invokeRequest × error
  UnmarshalCreateActorRequest : Bytes → CreateActorRequest × error
  UnmarshalInvokeActorRequest : Bytes → InvokeActorRequest × error
  UnmarshalScheduleInvocationRequest : Bytes → ScheduleInvocationRequest × error
  ExtractKVFromPutPayload : Bytes → Bytes × Bytes × error
  sprintBytes : Bytes → String

/-! ## Host functions (`virtual/wazero.go`) -/

/-- Modelled from the spec: the operation names of package `wapcutils`, which is
not among the sources: "names fixed", `kv.put`. -/
def KVPutOperationName : String := "kv.put"

/-- Modelled from the spec: the operation name `kv.get` of package `wapcutils`. -/
def KVGetOperationName : String := "kv.get"

/-- Modelled from the spec: the operation name `actor.create` of package `wapcutils`. -/
def CreateActorOperationName : String := "actor.create"

/-- Modelled from the spec: the operation name `actor.invoke` of package `wapcutils`. -/
def InvokeActorOperationName : String := "actor.invoke"

/-- Modelled from the spec: the operation name `schedule.invoke` of package
`wapcutils`. -/
def ScheduleInvocationOperationName : String := "schedule.invoke"

/-- Modelled from the spec: the reserved lifecycle operation `__startup__` of
package `wapcutils`. -/
def StartupOperationName : String := "__startup__"

/-- What `ctx.Value(hostFnActorIDCtxKey\x7b\x7d)` returns: nothing, a string, or a
value of another type, of which `%T` prints the name. -/
inductive CtxValue where
  | nil
  | string (s : String)
  | other (typeName : String)
  deriving DecidableEq, Repr

/-- The interface `Environment` as its callers in these sources use it. -/
structure Environment (σ : Type) where
  Invoke : String → String → String → Bytes → σ → (Bytes × error) × σ
  InvokeActor : String → String → String → Bytes → σ → (Bytes × error) × σ

/-- The function returned by `newHostFnRouter`, applied to the context's actor ID
value and the waPC call. -/
def newHostFnRouter {σ : Type} (codecs : Codecs) (reg : Registry σ)
    (environment : Environment σ) (customHostFns : String → Option (Bytes → Bytes × error))
    (actorNamespace : String) (actorModuleID : String)
    (actorIDIface : CtxValue) (wapcBinding wapcNamespace wapcOperation : String)
    (wapcPayload : Bytes) (w : World σ) : (Bytes × error) × World σ :=
  match actorIDIface with
  | .nil =>
    (([], .errorString "wazeroHostFnRouter: could not find non-empty actor ID in context"), w)
  | .other typeName =>
    (([], .errorString ("wazeroHostFnRouter: wrong type for actor ID in context: "
      ++ typeName)), w)
  | .string actorID =>
    if actorID = "" then
      (([], .errorString "wazeroHostFnRouter: could not find non-empty actor ID in context"), w)
    else if wapcOperation = KVPutOperationName then
      let kv := codecs.ExtractKVFromPutPayload wapcPayload
      if kv.2.2 ≠ .nil then
        (([], Errorf_w "error extracting KV from PUT payload: " kv.2.2 ""), w)
      else
        let out := w.call (.ActorKVPut actorNamespace actorID kv.1 kv.2.1)
          (reg.ActorKVPut actorNamespace actorID kv.1 kv.2.1)
        if out.1 ≠ .nil then
          (([], Errorf_w "error performing PUT against registry: " out.1 ""), out.2)
        else
          (([], .nil), out.2)
    else if wapcOperation = KVGetOperationName then
      let out := w.call (.ActorKVGet actorNamespace actorID wapcPayload)
        (reg.ActorKVGet actorNamespace actorID wapcPayload)
      let v := out.1.1
      let ok := out.1.2.1
      let err := out.1.2.2
      if err ≠ .nil then
        (([], Errorf_w "error performing GET against registry: " err ""), out.2)
      else if !ok then
        (([0], .nil), out.2)
      else
        let resp : Bytes := []
        let resp := resp ++ [1]
        let resp := resp ++ v
        ((resp, .nil), out.2)
    else if wapcOperation = CreateActorOperationName then
      let dec := codecs.UnmarshalCreateActorRequest wapcPayload
      if dec.2 ≠ .nil then
        (([], Errorf_w "error unmarshaling CreateActorRequest: " dec.2 ""), w)
      else
        let req := dec.1
        let req : CreateActorRequest :=
          if req.ModuleID = "" then ⟨req.ActorID, actorModuleID⟩ else req
        let out := w.call (.CreateActor actorNamespace req.ActorID req.ModuleID)
          (reg.CreateActor actorNamespace req.ActorID req.ModuleID)
        if out.1 ≠ .nil then
          (([], Errorf_w "error creating new actor in registry: " out.1 ""), out.2)
        else
          (([], .nil), out.2)
    else if wapcOperation = InvokeActorOperationName then
      let dec := codecs.UnmarshalInvokeActorRequest wapcPayload
      if dec.2 ≠ .nil then
        (([], Errorf_w "error unmarshaling InvokeActorRequest: " dec.2 ""), w)
      else
        let req := dec.1
        w.call (.EnvironmentInvokeActor actorNamespace req.ActorID req.Operation req.Payload)
          (environment.InvokeActor actorNamespace req.ActorID req.Operation req.Payload)
    else if wapcOperation = ScheduleInvocationOperationName then
      let dec := codecs.UnmarshalScheduleInvocationRequest wapcPayload
      if dec.2 ≠ .nil then
        (([], Errorf_w "error unmarshaling ScheduleInvocationRequest: " dec.2
          (", payload: " ++ codecs.sprintBytes wapcPayload)), w)
      else
        let req := dec.1
        let toActorID := if req.Invoke.ActorID = "" then actorID else req.Invoke.ActorID
        (([], .nil), ⟨w.state, w.calls ++ [.AfterFunc req.AfterMillis actorNamespace toActorID
          req.Invoke.Operation req.Invoke.Payload]⟩)
    else
      match customHostFns wapcOperation with
      | some customFn =>
        let out := customFn wapcPayload
        if out.2 ≠ .nil then
          (([], Errorf_w ("error running custom host function: " ++ wapcOperation ++ ", err: ")
            out.2 ""), w)
        else
          ((out.1, .nil), w)
      | none =>
        (([], .errorString ("unknown host function: " ++ wapcBinding ++ "::" ++ wapcNamespace
          ++ "::" ++ wapcOperation ++ "::" ++ codecs.sprintBytes wapcPayload)), w)

/-- The interface `Actor`, of which the code calls `Invoke`. -/
structure Actor (σ : Type) where
  Invoke : String → Bytes → σ → (Bytes × error) × σ

/-- The struct `activatedActor`; the zero value has no actor and generation 0. -/
structure activatedActor (σ : Type) where
  a : Option (Actor σ)
  generation : Nat

/-- The function `newActivatedActor`. -/
def newActivatedActor {σ : Type} (actor : Actor σ) (generation : Nat) (w : World σ) :
    (activatedActor σ × error) × World σ :=
  let out := w.call (.ActorInvoke StartupOperationName []) (actor.Invoke StartupOperationName [])
  let err := out.1.2
  if err ≠ .nil then
    ((⟨none, 0⟩, Errorf_w "newActivatedActor: error invoking startup function: " err ""), out.2)
  else
    ((⟨some actor, generation⟩, .nil), out.2)

/-! ## The HTTP server (`virtual/server.go`) -/

/-- An `io.Reader`: the bytes it delivers, then the error that ends the stream,
nil for a clean end (`io.EOF`). The error is reported by the read that follows
the last byte. -/
structure Reader where
  data : Bytes
  err : error

/-- The function `io.LimitReader(r, n)`: stops with `io.EOF` after `n` bytes. -/
def io_LimitReader (r : Reader) (n : Nat) : Reader :=
  if r.data.length < n then r else ⟨r.data.take n, .nil⟩

/-- The function `ioutil.ReadAll`: reads until the stream ends; a clean end is
not an error. -/
def ioutil_ReadAll (r : Reader) : Bytes × error :=
  (r.data, r.err)

/-- The part of `http.Request` that the invoke handler reads. -/
structure Request where
  Body : Reader

/-- What a handler has done to its `http.ResponseWriter`: the status code of the
first `WriteHeader`, the bytes written, and whether the handler panicked. -/
structure ResponseWriter where
  statusCode : Option Int
  body : Bytes
  panicked : Bool
  deriving DecidableEq, Repr

namespace ResponseWriter

/-- A writer no handler has touched yet. -/
def new : ResponseWriter := ⟨none, [], false⟩

/-- The method `WriteHeader`: the first call fixes the status code. -/
def WriteHeader (w : ResponseWriter) (statusCode : Int) : ResponseWriter :=
  match w.statusCode with
  | none => ⟨some statusCode, w.body, w.panicked⟩
  | some _ => w

/-- The method `Write`: a write before any `WriteHeader` sends status 200. -/
def Write (w : ResponseWriter) (b : Bytes) : ResponseWriter :=
  ⟨some (w.statusCode.getD 200), w.body ++ b, w.panicked⟩

/-- The statements `w.WriteHeader(500); w.Write([]byte(err.Error()))`, which every
failing path of the handlers runs; `err.Error()` may panic, after the header. -/
def writeError (w : ResponseWriter) (err : error) : ResponseWriter :=
  let w := w.WriteHeader 500
  match err.Error with
  | some text => w.Write (stringBytes text)
  | none => ⟨w.statusCode, w.body, true⟩

end ResponseWriter

/-- The struct `server`. -/
structure server (σ : Type) where
  registry : Registry σ
  environment : Environment σ

/-- The method `server.invoke`, the handler of `/api/v1/invoke`. -/
def server.invoke {σ : Type} (s : server σ) (codecs : Codecs) (w : ResponseWriter)
    (r : Request) (world : World σ) : ResponseWriter × World σ :=
  let read := ioutil_ReadAll (io_LimitReader r.Body (1 <<< 24))
  let jsonBytes := read.1
  if read.2 ≠ .nil then
    (w.writeError read.2, world)
  else
    let dec := codecs.UnmarshalInvokeRequest jsonBytes
    if dec.2 ≠ .nil then
      (w.writeError dec.2, world)
    else
      let req := dec.1
      let out := world.call
        (.EnvironmentInvoke req.Namespace req.ActorID req.Operation req.Payload)
        (s.environment.Invoke req.Namespace req.ActorID req.Operation req.Payload)
      let result := out.1.1
      let err := out.1.2
      if err ≠ .nil then
        (w.writeError err, out.2)
      else
        ((w.WriteHeader 200).Write result, out.2)

/-! ## Concrete collaborators, for evaluating the code on explicit inputs -/

/-- A reference to actor `a` of namespace `ns` on server `server-1`, of the given type. -/
def sampleReference (t : ReferenceType) : ActorReference :=
  ⟨"ns", "a", "m", "server-1", "127.0.0.1:9090", 0, t⟩

/-- A registry over a counter state that leaves the state alone and answers
every `EnsureActivation` with the given references and error. -/
def sampleRegistry (references : List ActorReference) (err : error) : Registry Nat where
  EnsureActivation := fun _ _ st => ((references, err), st)
  ActorKVGet := fun _ _ key st => ((key, true, .nil), st)
  ActorKVPut := fun _ _ _ _ st => (.nil, st)
  CreateActor := fun _ _ _ st => (.nil, st)
  BlacklistServer := fun _ _ st => (.nil, st)

/-- An activation cache over a counter state, which counts its invocations: the
first invocation is refused as blacklisted, every later one echoes the payload. -/
def sampleActivations : activations Nat where
  invoke := fun _ _ payload st =>
    if st = 0 then
      (([], NewBlacklistedActivationError (.errorString "actor is blacklisted") "server-1"),
        st + 1)
    else ((payload, .nil), st + 1)

/-- The environment of server `server-1` over the sample collaborators. -/
def sampleEnvironment (references : List ActorReference) (err : error) : environment Nat :=
  ⟨sampleActivations, "server-1", sampleRegistry references err⟩

/-- The body of a well-formed invoke request for operation `op` of actor `a` in
namespace `ns`, with payload `[1, 2]` in base64. -/
def sampleInvokeBody : Bytes :=
  stringBytes
    "\x7b\"namespace\":\"ns\",\"actor_id\":\"a\",\"operation\":\"op\",\"payload\":\"AQI=\"\x7d"

/-- Decoders that stand for `encoding/json` and `wapcutils` on the sample inputs:
`sampleInvokeBody` decodes to the request it spells, every other body is
rejected; a PUT payload is split after its first byte. -/
def sampleCodecs : Codecs where
  UnmarshalInvokeRequest := fun b =>
    if b = sampleInvokeBody then (⟨"ns", "a", "op", [1, 2]⟩, .nil)
    else (⟨"", "", "", []⟩, .errorString "unexpected end of JSON input")
  UnmarshalCreateActorRequest := fun _ => (⟨"", ""⟩, .errorString "unexpected end of JSON input")
  UnmarshalInvokeActorRequest := fun _ =>
    (⟨"", "", []⟩, .errorString "unexpected end of JSON input")
  UnmarshalScheduleInvocationRequest := fun _ =>
    (⟨⟨"", "", []⟩, 0⟩, .errorString "unexpected end of JSON input")
  ExtractKVFromPutPayload := fun b => (b.take 1, b.drop 1, .nil)
  sprintBytes := fun _ => ""

/-- The HTTP server of `server-1`: its environment is the sample environment,
whose registry places every actor locally. The version of `environment.go` at
hand has no `InvokeActor`; `Invoke` stands for it. -/
def sampleServer : server (World Nat) where
  registry :=
    { EnsureActivation := fun _ _ st => (([], .nil), st)
      ActorKVGet := fun _ _ _ st => (([], false, .nil), st)
      ActorKVPut := fun _ _ _ _ st => (.nil, st)
      CreateActor := fun _ _ _ st => (.nil, st)
      BlacklistServer := fun _ _ st => (.nil, st) }
  environment :=
    { Invoke := (sampleEnvironment [sampleReference .ReferenceTypeLocal] .nil).Invoke
      InvokeActor := (sampleEnvironment [sampleReference .ReferenceTypeLocal] .nil).Invoke }

/-- A request whose body reads cleanly to the given bytes. -/
def sampleRequest (body : Bytes) : Request :=
  ⟨⟨body, .nil⟩⟩

/-- A decoder that stands for `json.Unmarshal` on padded bodies: white space
after the JSON value is valid JSON, so a body that spells `sampleInvokeBody`
followed by spaces only decodes to the request it spells; every other body is
rejected. -/
def paddedUnmarshalInvokeRequest (b : Bytes) : invokeRequest × error :=
  if b.take sampleInvokeBody.length = sampleInvokeBody ∧
      (b.drop sampleInvokeBody.length).all (fun c => c == 32) = true then
    (⟨"ns", "a", "op", [1, 2]⟩, .nil)
  else (⟨"", "", "", []⟩, .errorString "invalid character after top-level value")

/-- The sample decoders with `paddedUnmarshalInvokeRequest` for invoke requests. -/
def paddedCodecs : Codecs where
  UnmarshalInvokeRequest := paddedUnmarshalInvokeRequest
  UnmarshalCreateActorRequest := sampleCodecs.UnmarshalCreateActorRequest
  UnmarshalInvokeActorRequest := sampleCodecs.UnmarshalInvokeActorRequest
  UnmarshalScheduleInvocationRequest := sampleCodecs.UnmarshalScheduleInvocationRequest
  ExtractKVFromPutPayload := sampleCodecs.ExtractKVFromPutPayload
  sprintBytes := sampleCodecs.sprintBytes

/-- The request `sampleInvokeBody` padded with spaces to exactly 16 MiB. -/
def paddedInvokeBody : Bytes :=
  sampleInvokeBody ++ List.replicate (2 ^ 24 - sampleInvokeBody.length) 32

/-- A body of 16 MiB + 1 bytes: `paddedInvokeBody` followed by the letter `x`. -/
def oversizedInvokeBody : Bytes :=
  paddedInvokeBody ++ [120]

/-- Decoders that stand for `encoding/json` on `actor.create` payloads: the empty
payload is malformed, a payload of one byte asks for actor `b` with no module
ID, every longer payload asks for actor `b` of module `other`. -/
def forkCodecs : Codecs where
  UnmarshalInvokeRequest := sampleCodecs.UnmarshalInvokeRequest
  UnmarshalCreateActorRequest := fun b =>
    match b with
    | [] => (⟨"", ""⟩, .errorString "unexpected end of JSON input")
    | [_] => (⟨"b", ""⟩, .nil)
    | _ => (⟨"b", "other"⟩, .nil)
  UnmarshalInvokeActorRequest := sampleCodecs.UnmarshalInvokeActorRequest
  UnmarshalScheduleInvocationRequest := sampleCodecs.UnmarshalScheduleInvocationRequest
  ExtractKVFromPutPayload := sampleCodecs.ExtractKVFromPutPayload
  sprintBytes := sampleCodecs.sprintBytes

/-- An environment interface over a counter state whose calls do nothing. -/
def idleEnvironment : Environment Nat where
  Invoke := fun _ _ _ _ st => (([], .nil), st)
  InvokeActor := fun _ _ _ _ st => (([], .nil), st)

/-- An actor over a counter state, which counts its invocations: in state 0 its
invocation fails, in every other state it echoes the payload. -/
def sampleActor : Actor Nat where
  Invoke := fun _ payload st =>
    if st = 0 then (([], .errorString "startup failed"), st + 1)
    else ((payload, .nil), st + 1)

/-- A reference to actor `a` of namespace `ns` placed on another server,
`server-2`, reachable over HTTP. -/
def remoteReference : ActorReference :=
  ⟨"ns", "a", "m", "server-2", "127.0.0.1:9091", 0, .ReferenceTypeRemoteHTTP⟩

/-! ## Theorems: the environment -/

theorem World.call_fst {σ α : Type} (w : World σ) (c : Call) (f : σ → α × σ) :
    (w.call c f).1 = (f w.state).1 := rfl

theorem World.call_snd {σ α : Type} (w : World σ) (c : Call) (f : σ → α × σ) :
    (w.call c f).2 = ⟨(f w.state).2, w.calls ++ [c]⟩ := rfl

/-- C1: when `EnsureActivation` succeeds with an empty list of references,
`environment.Invoke` returns the `[invariant violated]` error and no result
bytes, and the only call it has made is that `EnsureActivation`: nothing is
dispatched to the activation cache. -/
theorem C1_Invoke_zero_references {σ : Type} (r : environment σ)
    (ns actorID operation : String) (payload : Bytes) (w : World σ)
    (h : (r.registry.EnsureActivation ns actorID w.state).1 = ([], error.nil)) :
    (r.Invoke ns actorID operation payload w).1 =
      ([], error.errorString
        ("[invariant violated] ensureActivation() success with 0 references for actor ID: "
          ++ actorID)) ∧
    (r.Invoke ns actorID operation payload w).1.2 ≠ error.nil ∧
    (r.Invoke ns actorID operation payload w).2 =
      ⟨(r.registry.EnsureActivation ns actorID w.state).2,
        w.calls ++ [Call.EnsureActivation ns actorID]⟩ := by
  have h1 : (r.registry.EnsureActivation ns actorID w.state).1.1 = [] := by rw [h]
  have h2 : (r.registry.EnsureActivation ns actorID w.state).1.2 = error.nil := by rw [h]
  simp [environment.Invoke, World.call, h1, h2]

theorem C1_Invoke_zero_references_witness :
    ((sampleEnvironment [] error.nil).registry.EnsureActivation "ns" "a" 0).1
      = ([], error.nil) ∧
    ((sampleEnvironment [] error.nil).Invoke "ns" "a" "op" [1, 2] ⟨0, []⟩).2 =
      ⟨0, [Call.EnsureActivation "ns" "a"]⟩ :=
  ⟨rfl, (C1_Invoke_zero_references (sampleEnvironment [] error.nil) "ns" "a" "op" [1, 2]
    ⟨0, []⟩ rfl).2.2⟩

/-- C2: when `EnsureActivation` succeeds with a non-empty list whose first
reference has type Local, `environment.Invoke` returns exactly what the
activation cache's `invoke` returns for that first reference, the operation and
the payload: the same result bytes and the same error, unmodified; it makes
that one call into the activation cache, after the `EnsureActivation`. -/
theorem C2_Invoke_local_pass_through {σ : Type} (r : environment σ)
    (ns actorID operation : String) (payload : Bytes) (w : World σ)
    (reference : ActorReference) (rest : List ActorReference)
    (h : (r.registry.EnsureActivation ns actorID w.state).1 = (reference :: rest, error.nil))
    (hlocal : reference.Type_ = ReferenceType.ReferenceTypeLocal) :
    (r.Invoke ns actorID operation payload w).1 =
      (r.activations.invoke reference operation payload
        (r.registry.EnsureActivation ns actorID w.state).2).1 ∧
    (r.Invoke ns actorID operation payload w).2 =
      ⟨(r.activations.invoke reference operation payload
          (r.registry.EnsureActivation ns actorID w.state).2).2,
        w.calls ++ [Call.EnsureActivation ns actorID,
          Call.activationsInvoke reference operation payload]⟩ := by
  have h1 : (r.registry.EnsureActivation ns actorID w.state).1.1 = reference :: rest := by
    rw [h]
  have h2 : (r.registry.EnsureActivation ns actorID w.state).1.2 = error.nil := by rw [h]
  simp [environment.Invoke, environment.invokeReferences, environment.InvokeLocal,
    World.call, h1, h2, hlocal]

theorem C2_Invoke_local_pass_through_witness :
    ((sampleEnvironment [sampleReference .ReferenceTypeLocal] error.nil).registry.EnsureActivation
      "ns" "a" 1).1 = ([sampleReference .ReferenceTypeLocal], error.nil) ∧
    (sampleReference .ReferenceTypeLocal).Type_ = ReferenceType.ReferenceTypeLocal ∧
    ((sampleEnvironment [sampleReference .ReferenceTypeLocal] error.nil).Invoke
      "ns" "a" "op" [1, 2] ⟨1, []⟩).1 = ([1, 2], error.nil) :=
  ⟨rfl, rfl, (C2_Invoke_local_pass_through
    (sampleEnvironment [sampleReference .ReferenceTypeLocal] error.nil) "ns" "a" "op" [1, 2]
    ⟨1, []⟩ (sampleReference .ReferenceTypeLocal) [] rfl rfl).1⟩

/-- C3: the code at the failing input. The registry answers the environment of
`server-1` with one reference, of type RemoteHTTP, that names another server,
`server-2`. `environment.Invoke` returns an error and no bytes, and the only
call it has made is `EnsureActivation`: the invocation is forwarded nowhere. -/
theorem C3_remote_reference_unhandled :
    remoteReference.ServerID ≠ (sampleEnvironment [remoteReference] error.nil).serverID ∧
    remoteReference.Type_ = ReferenceType.ReferenceTypeRemoteHTTP ∧
    ((sampleEnvironment [remoteReference] error.nil).registry.EnsureActivation "ns" "a" 1).1
      = ([remoteReference], error.nil) ∧
    ((sampleEnvironment [remoteReference] error.nil).Invoke
      "ns" "a" "op" [1, 2] ⟨1, []⟩).1.2 ≠ error.nil ∧
    ((sampleEnvironment [remoteReference] error.nil).Invoke
      "ns" "a" "op" [1, 2] ⟨1, []⟩).1.1 = [] ∧
    ((sampleEnvironment [remoteReference] error.nil).Invoke
      "ns" "a" "op" [1, 2] ⟨1, []⟩).2.calls = [Call.EnsureActivation "ns" "a"] ∧
    ((sampleEnvironment [remoteReference] error.nil).Invoke
      "ns" "a" "op" [1, 2] ⟨1, []⟩).2.state = 1 := by
  decide

/-- C4, as the claim states it, fails: the activation cache of `server-1` refuses
its first invocation as blacklisted and would serve the next one.
`environment.Invoke` returns the blacklisted error of the first dispatch, having
called `EnsureActivation` once and `BlacklistServer` never, although the same
invocation made again succeeds. -/
theorem C4_no_retry_counterexample :
    IsBlacklistedActivationError
      ((sampleEnvironment [sampleReference .ReferenceTypeLocal] error.nil).Invoke
        "ns" "a" "op" [1, 2] ⟨0, []⟩).1.2 = true ∧
    ((sampleEnvironment [sampleReference .ReferenceTypeLocal] error.nil).Invoke
      "ns" "a" "op" [1, 2] ⟨0, []⟩).2.calls =
      [Call.EnsureActivation "ns" "a",
        Call.activationsInvoke (sampleReference .ReferenceTypeLocal) "op" [1, 2]] ∧
    ((sampleEnvironment [sampleReference .ReferenceTypeLocal] error.nil).Invoke
      "ns" "a" "op" [1, 2]
      ((sampleEnvironment [sampleReference .ReferenceTypeLocal] error.nil).Invoke
        "ns" "a" "op" [1, 2] ⟨0, []⟩).2).1 = ([1, 2], error.nil) := by
  decide

/-- C4, amended: `environment.Invoke` never retries. On every input it calls
`EnsureActivation` exactly once, then the activation cache at most once, and
`BlacklistServer` never; and when the dispatch of the first (Local) reference
fails with a BlacklistedActivation error, `Invoke` returns that result and that
error unchanged to the caller after this single attempt. -/
theorem C4_Invoke_single_attempt {σ : Type} (r : environment σ)
    (ns actorID operation : String) (payload : Bytes) (w : World σ) :
    ((r.Invoke ns actorID operation payload w).2.calls =
        w.calls ++ [Call.EnsureActivation ns actorID] ∨
      ∃ reference, (r.Invoke ns actorID operation payload w).2.calls =
        w.calls ++ [Call.EnsureActivation ns actorID,
          Call.activationsInvoke reference operation payload]) ∧
    (∀ (reference : ActorReference) (rest : List ActorReference),
      (r.registry.EnsureActivation ns actorID w.state).1 = (reference :: rest, error.nil) →
      reference.Type_ = ReferenceType.ReferenceTypeLocal →
      IsBlacklistedActivationError (r.activations.invoke reference operation payload
        (r.registry.EnsureActivation ns actorID w.state).2).1.2 = true →
      (r.Invoke ns actorID operation payload w).1 =
        (r.activations.invoke reference operation payload
          (r.registry.EnsureActivation ns actorID w.state).2).1 ∧
      IsBlacklistedActivationError (r.Invoke ns actorID operation payload w).1.2 = true ∧
      (r.Invoke ns actorID operation payload w).2.calls =
        w.calls ++ [Call.EnsureActivation ns actorID,
          Call.activationsInvoke reference operation payload]) := by
  constructor
  · rcases hreg : r.registry.EnsureActivation ns actorID w.state with ⟨⟨references, err⟩, st⟩
    by_cases herr : err = error.nil
    · subst herr
      cases references with
      | nil => left; simp [environment.Invoke, World.call, hreg]
      | cons reference rest =>
        cases ht : reference.Type_ with
        | ReferenceTypeLocal =>
          right
          exact ⟨reference, by
            simp [environment.Invoke, environment.invokeReferences, environment.InvokeLocal,
              World.call, hreg, ht]⟩
        | ReferenceTypeRemoteHTTP =>
          left
          simp [environment.Invoke, environment.invokeReferences, World.call, hreg, ht]
        | other tag =>
          left
          simp [environment.Invoke, environment.invokeReferences, World.call, hreg, ht]
    · left
      simp [environment.Invoke, World.call, hreg, herr]
  · intro reference rest h hlocal hbl
    have h1 : (r.registry.EnsureActivation ns actorID w.state).1.1 = reference :: rest := by
      rw [h]
    have h2 : (r.registry.EnsureActivation ns actorID w.state).1.2 = error.nil := by rw [h]
    have hi : (r.Invoke ns actorID operation payload w) =
        ((r.activations.invoke reference operation payload
          (r.registry.EnsureActivation ns actorID w.state).2).1,
         ⟨(r.activations.invoke reference operation payload
            (r.registry.EnsureActivation ns actorID w.state).2).2,
          w.calls ++ [Call.EnsureActivation ns actorID,
            Call.activationsInvoke reference operation payload]⟩) := by
      simp [environment.Invoke, environment.invokeReferences, environment.InvokeLocal,
        World.call, h1, h2, hlocal]
    rw [hi]
    exact ⟨rfl, hbl, rfl⟩

theorem C4_Invoke_single_attempt_witness :
    ((sampleEnvironment [sampleReference .ReferenceTypeLocal] error.nil).registry.EnsureActivation
      "ns" "a" 0).1 = ([sampleReference .ReferenceTypeLocal], error.nil) ∧
    (sampleReference .ReferenceTypeLocal).Type_ = ReferenceType.ReferenceTypeLocal ∧
    IsBlacklistedActivationError (sampleActivations.invoke
      (sampleReference .ReferenceTypeLocal) "op" [1, 2] 0).1.2 = true ∧
    IsBlacklistedActivationError
      ((sampleEnvironment [sampleReference .ReferenceTypeLocal] error.nil).Invoke
        "ns" "a" "op" [1, 2] ⟨0, []⟩).1.2 = true :=
  ⟨rfl, rfl, by decide, ((C4_Invoke_single_attempt
    (sampleEnvironment [sampleReference .ReferenceTypeLocal] error.nil) "ns" "a" "op" [1, 2]
    ⟨0, []⟩).2 (sampleReference .ReferenceTypeLocal) [] rfl rfl (by decide)).2.1⟩

/-- C10: `InvokeLocal` on an environment whose own ID differs from the requested
server ID returns an error and no bytes and leaves the collaborators and the
log of calls untouched, so the activation cache is not invoked; when the two IDs
are equal it returns exactly what the activation cache's `invoke` returns for
the reference, the operation and the payload, through that one call. -/
theorem C10_InvokeLocal_server_check {σ : Type} (r : environment σ) (serverID : String)
    (reference : ActorReference) (operation : String) (payload : Bytes) (w : World σ) :
    (serverID ≠ r.serverID →
      (r.InvokeLocal serverID reference operation payload w).1 =
        ([], error.errorString ("request for serverID: " ++ serverID
          ++ " received by server: " ++ r.serverID ++ ", cannot fullfil")) ∧
      (r.InvokeLocal serverID reference operation payload w).1.2 ≠ error.nil ∧
      (r.InvokeLocal serverID reference operation payload w).2 = w) ∧
    (serverID = r.serverID →
      (r.InvokeLocal serverID reference operation payload w).1 =
        (r.activations.invoke reference operation payload w.state).1 ∧
      (r.InvokeLocal serverID reference operation payload w).2 =
        ⟨(r.activations.invoke reference operation payload w.state).2,
          w.calls ++ [Call.activationsInvoke reference operation payload]⟩) := by
  constructor
  · intro h
    simp [environment.InvokeLocal, h]
  · intro h
    simp [environment.InvokeLocal, World.call, h]

theorem C10_InvokeLocal_server_check_witness :
    ("server-2" ≠ (sampleEnvironment [] error.nil).serverID ∧
      ((sampleEnvironment [] error.nil).InvokeLocal "server-2"
        (sampleReference .ReferenceTypeLocal) "op" [7] ⟨1, []⟩).2 = ⟨1, []⟩) ∧
    ("server-1" = (sampleEnvironment [] error.nil).serverID ∧
      ((sampleEnvironment [] error.nil).InvokeLocal "server-1"
        (sampleReference .ReferenceTypeLocal) "op" [7] ⟨1, []⟩).1 = ([7], error.nil)) :=
  ⟨⟨by decide, ((C10_InvokeLocal_server_check (sampleEnvironment [] error.nil) "server-2"
      (sampleReference .ReferenceTypeLocal) "op" [7] ⟨1, []⟩).1 (by decide)).2.2⟩,
    ⟨by decide, ((C10_InvokeLocal_server_check (sampleEnvironment [] error.nil) "server-1"
      (sampleReference .ReferenceTypeLocal) "op" [7] ⟨1, []⟩).2 (by decide)).1⟩⟩

/-! ## Theorems: errors -/

theorem error_is_zeroBlacklisted (e : error) :
    error.is e zeroBlacklistedActivationErr = unwrapChainHasBlacklisted e := by
  induction e with
  | nil => rfl
  | errorString s => simp [error.is, unwrapChainHasBlacklisted, zeroBlacklistedActivationErr]
  | wrapError msg err ih =>
    cases err with
    | nil => simp [error.is, unwrapChainHasBlacklisted, zeroBlacklistedActivationErr]
    | errorString s =>
      simp [error.is, unwrapChainHasBlacklisted, zeroBlacklistedActivationErr]
    | wrapError msg2 err2 =>
      rw [error.is, ih]
      · simp [unwrapChainHasBlacklisted, zeroBlacklistedActivationErr]
      · intro h; cases h
    | BlacklistedActivationErr err2 serverID =>
      rw [error.is, ih]
      · simp [unwrapChainHasBlacklisted, zeroBlacklistedActivationErr]
      · intro h; cases h
  | BlacklistedActivationErr err serverID _ =>
    simp [error.is, unwrapChainHasBlacklisted, zeroBlacklistedActivationErr,
      error.BlacklistedActivationErr_Is, error.isBlacklistedActivationErr]

theorem IsBlacklistedActivationError_eq_chain (e : error) :
    IsBlacklistedActivationError e = unwrapChainHasBlacklisted e := by
  unfold IsBlacklistedActivationError errors_Is
  by_cases h : e = error.nil
  · subst h
    simp [unwrapChainHasBlacklisted, zeroBlacklistedActivationErr]
  · simp [h, zeroBlacklistedActivationErr]
    exact error_is_zeroBlacklisted e

theorem unwrapChain_Errorf_w (msgPrefix msgSuffix : String) (e : error)
    (h : unwrapChainHasBlacklisted e = true) :
    unwrapChainHasBlacklisted (Errorf_w msgPrefix e msgSuffix) = true := by
  cases e with
  | nil => simp [unwrapChainHasBlacklisted] at h
  | errorString s => simp [unwrapChainHasBlacklisted] at h
  | wrapError msg err => simpa [Errorf_w, unwrapChainHasBlacklisted] using h
  | BlacklistedActivationErr err serverID => simp [Errorf_w, unwrapChainHasBlacklisted]

theorem unwrapChain_wrapTimes (msgPrefix : Nat → String) (n : Nat) (e : error)
    (h : unwrapChainHasBlacklisted e = true) :
    unwrapChainHasBlacklisted (wrapTimes msgPrefix n e) = true := by
  induction n with
  | zero => simpa [wrapTimes] using h
  | succ n ih => exact unwrapChain_Errorf_w _ _ _ ih

/-- C8: status code round trip. For every status code that has an entry in
`statusCodeToErrorWrapper`, and every inner error and server ID, the error the
entry builds implements `HTTPError` and its `HTTPStatusCode()` is that status
code; and 410 has an entry, which builds an error whose `HTTPStatusCode()` is
410, for which `IsBlacklistedActivationError` is true and whose `ServerID()` is
the server ID given. -/
theorem C8_status_code_round_trip :
    (∀ (c : Int) (f : error → String → error), statusCodeToErrorWrapper c = some f →
      ∀ (err : error) (serverID : String), HTTPStatusCode? (f err serverID) = some c) ∧
    (∃ f, statusCodeToErrorWrapper 410 = some f ∧
      ∀ (err : error) (serverID : String),
        HTTPStatusCode? (f err serverID) = some 410 ∧
        IsBlacklistedActivationError (f err serverID) = true ∧
        ServerID? (f err serverID) = some serverID) := by
  constructor
  · intro c f h err serverID
    unfold statusCodeToErrorWrapper at h
    split at h
    · rename_i hc
      cases h
      simp [NewBlacklistedActivationError, HTTPStatusCode?, http_StatusGone, hc]
    · cases h
  · refine ⟨NewBlacklistedActivationError, rfl, ?_⟩
    intro err serverID
    refine ⟨rfl, ?_, rfl⟩
    rw [IsBlacklistedActivationError_eq_chain]
    rfl

theorem C8_status_code_round_trip_witness :
    statusCodeToErrorWrapper 410 = some NewBlacklistedActivationError ∧
    HTTPStatusCode? (NewBlacklistedActivationError (error.errorString "n/a") "n/a") = some 410 :=
  ⟨rfl, C8_status_code_round_trip.1 410 NewBlacklistedActivationError rfl
    (error.errorString "n/a") "n/a"⟩

/-- C9: `IsBlacklistedActivationError` is true for
`NewBlacklistedActivationError(err, serverID)` whatever `err` and `serverID`
are, and stays true however many times that error is wrapped with
`fmt.Errorf("...%w", err)`, as `environment.Invoke` wraps a registry error; it
is false for nil and for every error whose unwrap chain holds no
`BlacklistedActivationErr`, in particular for a plain error whose text is the
text of a blacklisted error. In one line: it is true exactly when the unwrap
chain of the error holds a `BlacklistedActivationErr`. -/
theorem C9_IsBlacklistedActivationError_exact :
    (∀ (err : error) (serverID : String),
      IsBlacklistedActivationError (NewBlacklistedActivationError err serverID) = true) ∧
    (∀ (msgPrefix : Nat → String) (n : Nat) (err : error) (serverID : String),
      IsBlacklistedActivationError
        (wrapTimes msgPrefix n (NewBlacklistedActivationError err serverID)) = true) ∧
    (∀ (actorID : String) (err : error) (serverID : String),
      IsBlacklistedActivationError
        (Errorf_w ("error ensuring activation of actor: " ++ actorID ++ " in registry: ")
          (NewBlacklistedActivationError err serverID) "") = true) ∧
    IsBlacklistedActivationError error.nil = false ∧
    (∀ e : error, unwrapChainHasBlacklisted e = false →
      IsBlacklistedActivationError e = false) ∧
    (∀ (err : error) (serverID text : String),
      (NewBlacklistedActivationError err serverID).Error = some text →
      IsBlacklistedActivationError (error.errorString text) = false) ∧
    (∀ e : error, IsBlacklistedActivationError e = true ↔ unwrapChainHasBlacklisted e = true) := by
  refine ⟨?_, ?_, ?_, ?_, ?_, ?_, ?_⟩
  · intro err serverID
    rw [IsBlacklistedActivationError_eq_chain]
    rfl
  · intro msgPrefix n err serverID
    rw [IsBlacklistedActivationError_eq_chain]
    exact unwrapChain_wrapTimes _ _ _ rfl
  · intro actorID err serverID
    rw [IsBlacklistedActivationError_eq_chain]
    exact unwrapChain_Errorf_w _ _ _ rfl
  · rw [IsBlacklistedActivationError_eq_chain]
    rfl
  · intro e h
    rw [IsBlacklistedActivationError_eq_chain, h]
  · intro err serverID text _
    rw [IsBlacklistedActivationError_eq_chain]
    rfl
  · intro e
    rw [IsBlacklistedActivationError_eq_chain]

theorem C9_IsBlacklistedActivationError_exact_witness :
    unwrapChainHasBlacklisted
      (error.errorString "BlacklistedActivationError(ServerID:server-1): refused") = false ∧
    (NewBlacklistedActivationError (error.errorString "refused") "server-1").Error =
      some "BlacklistedActivationError(ServerID:server-1): refused" ∧
    IsBlacklistedActivationError
      (error.errorString "BlacklistedActivationError(ServerID:server-1): refused") = false ∧
    IsBlacklistedActivationError
      (NewBlacklistedActivationError (error.errorString "refused") "server-1") = true :=
  ⟨rfl, by decide,
    C9_IsBlacklistedActivationError_exact.2.2.2.2.1
      (error.errorString "BlacklistedActivationError(ServerID:server-1): refused") rfl,
    C9_IsBlacklistedActivationError_exact.1 (error.errorString "refused") "server-1"⟩

/-! ## Theorems: the HTTP server -/

theorem Errorf_w_ne_nil (msgPrefix msgSuffix : String) (e : error) :
    Errorf_w msgPrefix e msgSuffix ≠ error.nil := by
  cases e <;> simp [Errorf_w]

theorem ResponseWriter.writeError_new (err : error) :
    (ResponseWriter.new.writeError err).statusCode = some 500 ∧
    ∀ text, err.Error = some text →
      ResponseWriter.new.writeError err = ⟨some 500, stringBytes text, false⟩ := by
  constructor
  · unfold ResponseWriter.writeError
    cases err.Error <;> rfl
  · intro text h
    simp [ResponseWriter.writeError, h, ResponseWriter.WriteHeader, ResponseWriter.Write,
      ResponseWriter.new]

/-- C5: the code at the failing input. The body is the well-formed request
`sampleInvokeBody`; the activation cache of `server-1` is in the state where it
refuses the invocation as blacklisted, so `Environment.Invoke` fails with an
error for which `IsBlacklistedActivationError` is true and whose
`HTTPStatusCode()` is 410; the handler of `/api/v1/invoke` answers with status
500. -/
theorem C5_invoke_blacklisted_answers_500 :
    (sampleCodecs.UnmarshalInvokeRequest sampleInvokeBody).2 = error.nil ∧
    IsBlacklistedActivationError
      (sampleServer.environment.Invoke "ns" "a" "op" [1, 2] ⟨0, []⟩).1.2 = true ∧
    HTTPStatusCode? (sampleServer.environment.Invoke "ns" "a" "op" [1, 2] ⟨0, []⟩).1.2
      = some 410 ∧
    (sampleServer.invoke sampleCodecs ResponseWriter.new (sampleRequest sampleInvokeBody)
      ⟨⟨0, []⟩, []⟩).1.statusCode = some 500 := by
  decide

/-- The answers of the invoke handler, by what its three steps return: name
`(jsonBytes, readErr)` what reading the body through the limit yields,
`(req, decErr)` what decoding `jsonBytes` yields, and `((result, err), st)`
what `Environment.Invoke` yields on the fields of `req`. -/
theorem server_invoke_responses_of_read {σ : Type} (s : server σ) (codecs : Codecs)
    (r : Request) (world : World σ)
    (jsonBytes : Bytes) (readErr : error)
    (hread : ioutil_ReadAll (io_LimitReader r.Body (1 <<< 24)) = (jsonBytes, readErr))
    (req : invokeRequest) (decErr : error)
    (hdec : codecs.UnmarshalInvokeRequest jsonBytes = (req, decErr))
    (result : Bytes) (err : error) (st : σ)
    (hinv : s.environment.Invoke req.Namespace req.ActorID req.Operation req.Payload
      world.state = ((result, err), st)) :
    ((s.invoke codecs ResponseWriter.new r world).1.statusCode = some 200 ↔
      readErr = error.nil ∧ decErr = error.nil ∧ err = error.nil) ∧
    (readErr = error.nil → decErr = error.nil → err = error.nil →
      s.invoke codecs ResponseWriter.new r world =
        (⟨some 200, result, false⟩,
          ⟨st, world.calls ++
            [Call.EnvironmentInvoke req.Namespace req.ActorID req.Operation req.Payload]⟩)) ∧
    (readErr ≠ error.nil →
      s.invoke codecs ResponseWriter.new r world =
        (ResponseWriter.new.writeError readErr, world)) ∧
    (readErr = error.nil → decErr ≠ error.nil →
      s.invoke codecs ResponseWriter.new r world =
        (ResponseWriter.new.writeError decErr, world)) ∧
    (readErr = error.nil → decErr = error.nil → err ≠ error.nil →
      s.invoke codecs ResponseWriter.new r world =
        (ResponseWriter.new.writeError err,
          ⟨st, world.calls ++
            [Call.EnvironmentInvoke req.Namespace req.ActorID req.Operation req.Payload]⟩)) ∧
    (∀ e : error, (ResponseWriter.new.writeError e).statusCode = some 500 ∧
      ∀ text, e.Error = some text →
        ResponseWriter.new.writeError e = ⟨some 500, stringBytes text, false⟩) ∧
    (r.Body.data.length ≤ 2 ^ 24 → jsonBytes = r.Body.data) := by
  have hr : ioutil_ReadAll (io_LimitReader r.Body 16777216) = (jsonBytes, readErr) := hread
  have hr1 : (ioutil_ReadAll (io_LimitReader r.Body 16777216)).1 = jsonBytes := by rw [hr]
  have hr2 : (ioutil_ReadAll (io_LimitReader r.Body 16777216)).2 = readErr := by rw [hr]
  have hd1 : (codecs.UnmarshalInvokeRequest jsonBytes).1 = req := by rw [hdec]
  have hd2 : (codecs.UnmarshalInvokeRequest jsonBytes).2 = decErr := by rw [hdec]
  have h200 : readErr = error.nil → decErr = error.nil → err = error.nil →
      s.invoke codecs ResponseWriter.new r world =
        (⟨some 200, result, false⟩,
          ⟨st, world.calls ++
            [Call.EnvironmentInvoke req.Namespace req.ActorID req.Operation req.Payload]⟩) := by
    intro h1 h2 h3
    simp [server.invoke, hr1, hr2, hd1, hd2, hinv, h1, h2, h3, World.call,
      ResponseWriter.WriteHeader, ResponseWriter.Write, ResponseWriter.new]
  have hA : readErr ≠ error.nil →
      s.invoke codecs ResponseWriter.new r world =
        (ResponseWriter.new.writeError readErr, world) := by
    intro h1
    simp [server.invoke, hr2, h1]
  have hB : readErr = error.nil → decErr ≠ error.nil →
      s.invoke codecs ResponseWriter.new r world =
        (ResponseWriter.new.writeError decErr, world) := by
    intro h1 h2
    simp [server.invoke, hr1, hr2, hd2, h1, h2]
  have hC : readErr = error.nil → decErr = error.nil → err ≠ error.nil →
      s.invoke codecs ResponseWriter.new r world =
        (ResponseWriter.new.writeError err,
          ⟨st, world.calls ++
            [Call.EnvironmentInvoke req.Namespace req.ActorID req.Operation req.Payload]⟩) := by
    intro h1 h2 h3
    simp [server.invoke, hr1, hr2, hd1, hd2, hinv, h1, h2, h3, World.call]
  have h500 : ∀ e : error, (ResponseWriter.new.writeError e).statusCode ≠ some 200 := by
    intro e h
    rw [(ResponseWriter.writeError_new e).1] at h
    cases h
  refine ⟨⟨?_, ?_⟩, h200, hA, hB, hC, ResponseWriter.writeError_new, ?_⟩
  · intro hs
    by_cases h1 : readErr = error.nil
    · by_cases h2 : decErr = error.nil
      · by_cases h3 : err = error.nil
        · exact ⟨h1, h2, h3⟩
        · rw [hC h1 h2 h3] at hs
          exact absurd hs (h500 _)
      · rw [hB h1 h2] at hs
        exact absurd hs (h500 _)
    · rw [hA h1] at hs
      exact absurd hs (h500 _)
  · rintro ⟨h1, h2, h3⟩
    rw [h200 h1 h2 h3]
  · intro hlen
    rw [← hr1]
    unfold ioutil_ReadAll io_LimitReader
    split
    · rfl
    · exact List.take_of_length_le hlen

/-! ## Theorems: host functions -/

/-- C7: the host function `kv.get`, called with a non-empty actor ID in the
context. The registry's `ActorKVGet` is called once, with the payload as key.
If it reports the key absent the result is the single byte `0x00`; if it
reports the value `v` the result is the byte `0x01` followed by exactly `v`, of
length `len(v) + 1`, so that dropping the first byte recovers `v` (the empty
`v` included); if it fails the host function returns an error and no result. -/
theorem C7_kv_get_result {σ : Type} (codecs : Codecs) (reg : Registry σ)
    (environment : Environment σ) (customHostFns : String → Option (Bytes → Bytes × error))
    (actorNamespace actorModuleID actorID wapcBinding wapcNamespace : String)
    (key : Bytes) (w : World σ) (hid : actorID ≠ "")
    (v : Bytes) (ok : Bool) (err : error) (st : σ)
    (hget : reg.ActorKVGet actorNamespace actorID key w.state = ((v, ok, err), st)) :
    (err = error.nil → ok = false →
      (newHostFnRouter codecs reg environment customHostFns actorNamespace actorModuleID
        (CtxValue.string actorID) wapcBinding wapcNamespace KVGetOperationName key w).1
        = ([0], error.nil)) ∧
    (err = error.nil → ok = true →
      (newHostFnRouter codecs reg environment customHostFns actorNamespace actorModuleID
        (CtxValue.string actorID) wapcBinding wapcNamespace KVGetOperationName key w).1
        = (1 :: v, error.nil) ∧
      (newHostFnRouter codecs reg environment customHostFns actorNamespace actorModuleID
        (CtxValue.string actorID) wapcBinding wapcNamespace KVGetOperationName key w).1.1.length
        = v.length + 1 ∧
      (newHostFnRouter codecs reg environment customHostFns actorNamespace actorModuleID
        (CtxValue.string actorID) wapcBinding wapcNamespace KVGetOperationName key w).1.1.drop 1
        = v) ∧
    (err ≠ error.nil →
      (newHostFnRouter codecs reg environment customHostFns actorNamespace actorModuleID
        (CtxValue.string actorID) wapcBinding wapcNamespace KVGetOperationName key w).1
        = ([], Errorf_w "error performing GET against registry: " err "") ∧
      (newHostFnRouter codecs reg environment customHostFns actorNamespace actorModuleID
        (CtxValue.string actorID) wapcBinding wapcNamespace KVGetOperationName key w).1.2
        ≠ error.nil) ∧
    (newHostFnRouter codecs reg environment customHostFns actorNamespace actorModuleID
      (CtxValue.string actorID) wapcBinding wapcNamespace KVGetOperationName key w).2
      = ⟨st, w.calls ++ [Call.ActorKVGet actorNamespace actorID key]⟩ := by
  have hne : KVGetOperationName ≠ KVPutOperationName := by decide
  refine ⟨?_, ?_, ?_, ?_⟩
  · intro he hok
    simp [newHostFnRouter, hid, hne, World.call, hget, he, hok]
  · intro he hok
    simp [newHostFnRouter, hid, hne, World.call, hget, he, hok]
  · intro he
    have := Errorf_w_ne_nil "error performing GET against registry: " "" err
    simp [newHostFnRouter, hid, hne, World.call, hget, he, this]
  · by_cases he : err = error.nil
    · cases ok <;> simp [newHostFnRouter, hid, hne, World.call, hget, he]
    · simp [newHostFnRouter, hid, hne, World.call, hget, he]

theorem C7_kv_get_result_witness :
    ("a" : String) ≠ "" ∧
    (sampleRegistry [] error.nil).ActorKVGet "ns" "a" [] 0 = (([], true, error.nil), 0) ∧
    (newHostFnRouter sampleCodecs (sampleRegistry [] error.nil)
      ⟨fun _ _ _ _ st => (([], error.nil), st), fun _ _ _ _ st => (([], error.nil), st)⟩
      (fun _ => none) "ns" "m" (CtxValue.string "a") "b" "n" KVGetOperationName []
      ⟨0, []⟩).1 = ([1], error.nil) :=
  ⟨by decide, rfl, ((C7_kv_get_result sampleCodecs (sampleRegistry [] error.nil)
      ⟨fun _ _ _ _ st => (([], error.nil), st), fun _ _ _ _ st => (([], error.nil), st)⟩
      (fun _ => none) "ns" "m" "a" "b" "n" [] ⟨0, []⟩ (by decide) [] true error.nil 0
      rfl).2.1 rfl rfl).1⟩

/-! ## Theorems: the body limit of the invoke handler -/

theorem sampleInvokeBody_length : sampleInvokeBody.length = 67 := by decide

theorem paddedInvokeBody_length : paddedInvokeBody.length = 2 ^ 24 := by
  unfold paddedInvokeBody
  rw [List.length_append, List.length_replicate, sampleInvokeBody_length]
  norm_num

theorem oversizedInvokeBody_length : oversizedInvokeBody.length = 2 ^ 24 + 1 := by
  unfold oversizedInvokeBody
  rw [List.length_append, paddedInvokeBody_length]
  rfl

theorem paddedCodecs_paddedInvokeBody :
    paddedCodecs.UnmarshalInvokeRequest paddedInvokeBody
      = (⟨"ns", "a", "op", [1, 2]⟩, error.nil) := by
  have h1 : paddedInvokeBody.take sampleInvokeBody.length = sampleInvokeBody := by
    unfold paddedInvokeBody
    exact List.take_left _ _
  have h2 : paddedInvokeBody.drop sampleInvokeBody.length
      = List.replicate (2 ^ 24 - sampleInvokeBody.length) 32 := by
    unfold paddedInvokeBody
    exact List.drop_left _ _
  have h3 : (List.replicate (2 ^ 24 - sampleInvokeBody.length) (32 : UInt8)).all
      (fun c => c == 32) = true := by
    rw [List.all_eq_true]
    intro c hc
    rw [List.eq_of_mem_replicate hc]
    rfl
  have hc : ∀ b, paddedCodecs.UnmarshalInvokeRequest b = paddedUnmarshalInvokeRequest b :=
    fun _ => rfl
  rw [hc]
  unfold paddedUnmarshalInvokeRequest
  rw [h2, h3, if_pos ⟨h1, rfl⟩]

theorem paddedCodecs_oversizedInvokeBody :
    (paddedCodecs.UnmarshalInvokeRequest oversizedInvokeBody).2 ≠ error.nil := by
  have h2 : oversizedInvokeBody.drop sampleInvokeBody.length
      = List.replicate (2 ^ 24 - sampleInvokeBody.length) 32 ++ [120] := by
    unfold oversizedInvokeBody paddedInvokeBody
    rw [List.append_assoc]
    exact List.drop_left _ _
  have h3 : (List.replicate (2 ^ 24 - sampleInvokeBody.length) (32 : UInt8) ++ [120]).all
      (fun c => c == 32) ≠ true := by
    rw [List.all_append]
    have : ([120] : List UInt8).all (fun c => c == 32) = false := by decide
    rw [this, Bool.and_false]
    exact Bool.false_ne_true
  have hc : ∀ b, paddedCodecs.UnmarshalInvokeRequest b = paddedUnmarshalInvokeRequest b :=
    fun _ => rfl
  rw [hc]
  unfold paddedUnmarshalInvokeRequest
  rw [h2, if_neg (fun h => h3 h.2)]
  intro h
  cases h

theorem readAll_limit_of_le (data : Bytes) (bodyErr : error) (h : 2 ^ 24 ≤ data.length) :
    ioutil_ReadAll (io_LimitReader ⟨data, bodyErr⟩ 16777216)
      = (data.take 16777216, error.nil) := by
  have h24 : (2 : Nat) ^ 24 = 16777216 := by decide
  rw [h24] at h
  unfold ioutil_ReadAll io_LimitReader
  rw [if_neg (Nat.not_lt.mpr h)]

theorem server_invoke_read_congr {σ : Type} (s : server σ) (codecs : Codecs)
    (w : ResponseWriter) (r1 r2 : Request) (world : World σ)
    (h : ioutil_ReadAll (io_LimitReader r1.Body 16777216)
      = ioutil_ReadAll (io_LimitReader r2.Body 16777216)) :
    s.invoke codecs w r1 world = s.invoke codecs w r2 world := by
  have h1 : ioutil_ReadAll (io_LimitReader r1.Body (1 <<< 24))
      = ioutil_ReadAll (io_LimitReader r2.Body (1 <<< 24)) := h
  unfold server.invoke
  rw [h1]

theorem server_invoke_of_ok {σ : Type} (s : server σ) (codecs : Codecs)
    (r : Request) (world : World σ) (jsonBytes : Bytes)
    (hread : ioutil_ReadAll (io_LimitReader r.Body 16777216) = (jsonBytes, error.nil))
    (req : invokeRequest)
    (hdec : codecs.UnmarshalInvokeRequest jsonBytes = (req, error.nil))
    (result : Bytes) (st : σ)
    (hinv : s.environment.Invoke req.Namespace req.ActorID req.Operation req.Payload
      world.state = ((result, error.nil), st)) :
    s.invoke codecs ResponseWriter.new r world =
      (⟨some 200, result, false⟩,
        ⟨st, world.calls ++
          [Call.EnvironmentInvoke req.Namespace req.ActorID req.Operation req.Payload]⟩) := by
  simp [server.invoke, hread, hdec, hinv, World.call, ResponseWriter.WriteHeader,
    ResponseWriter.Write, ResponseWriter.new]

theorem server_invoke_of_decode_error {σ : Type} (s : server σ) (codecs : Codecs)
    (r : Request) (world : World σ) (jsonBytes : Bytes)
    (hread : ioutil_ReadAll (io_LimitReader r.Body 16777216) = (jsonBytes, error.nil))
    (hdec : (codecs.UnmarshalInvokeRequest jsonBytes).2 ≠ error.nil) :
    s.invoke codecs ResponseWriter.new r world =
      (ResponseWriter.new.writeError (codecs.UnmarshalInvokeRequest jsonBytes).2, world) := by
  simp [server.invoke, hread, hdec]

/-- C11, as the claim states it, fails: `oversizedInvokeBody` has 16 MiB + 1
bytes, a well-formed request padded with spaces to 16 MiB and then the letter
`x`. The handler reads the first 16 MiB only, which decode, calls
`Environment.Invoke` and answers with status 200. -/
theorem C11_oversized_body_counterexample :
    oversizedInvokeBody.length = 2 ^ 24 + 1 ∧
    (sampleServer.invoke paddedCodecs ResponseWriter.new (sampleRequest oversizedInvokeBody)
      ⟨⟨1, []⟩, []⟩).1.statusCode = some 200 ∧
    (sampleServer.invoke paddedCodecs ResponseWriter.new (sampleRequest oversizedInvokeBody)
      ⟨⟨1, []⟩, []⟩).2.calls = [Call.EnvironmentInvoke "ns" "a" "op" [1, 2]] := by
  have hlen : (2 : Nat) ^ 24 ≤ oversizedInvokeBody.length := by
    rw [oversizedInvokeBody_length]
    exact Nat.le_succ _
  have hpad : paddedInvokeBody.length = 16777216 := by
    rw [paddedInvokeBody_length]
    norm_num
  have htake : oversizedInvokeBody.take 16777216 = paddedInvokeBody := by
    unfold oversizedInvokeBody
    exact List.take_left' hpad
  have hread : ioutil_ReadAll (io_LimitReader (sampleRequest oversizedInvokeBody).Body 16777216)
      = (paddedInvokeBody, error.nil) := by
    have h := readAll_limit_of_le oversizedInvokeBody error.nil hlen
    rw [htake] at h
    exact h
  have hrun := server_invoke_of_ok sampleServer paddedCodecs (sampleRequest oversizedInvokeBody)
    ⟨⟨1, []⟩, []⟩ paddedInvokeBody hread ⟨"ns", "a", "op", [1, 2]⟩
    paddedCodecs_paddedInvokeBody [1, 2]
    ⟨2, [Call.EnsureActivation "ns" "a",
      Call.activationsInvoke (sampleReference .ReferenceTypeLocal) "op" [1, 2]]⟩ rfl
  rw [hrun]
  exact ⟨oversizedInvokeBody_length, rfl, rfl⟩

/-- C11, amended: the handler of `/api/v1/invoke` never refuses a body for its
size. A body of exactly 16 MiB (2^24 bytes) is read whole, without error. Of a
longer body (16 MiB + 1 bytes included) the handler reads the first 2^24 bytes
and answers exactly as it answers that prefix sent alone, whatever the bytes
after it are: with status 500 and without calling `Environment.Invoke` when
the prefix does not decode, and with status 200 and the result of `Invoke`
when the prefix decodes and `Invoke` succeeds. -/
theorem C11_invoke_body_limit {σ : Type} (s : server σ) (codecs : Codecs)
    (data : Bytes) (bodyErr : error) (world : World σ) :
    (data.length = 2 ^ 24 →
      ioutil_ReadAll (io_LimitReader ⟨data, bodyErr⟩ (1 <<< 24)) = (data, error.nil)) ∧
    (2 ^ 24 ≤ data.length →
      s.invoke codecs ResponseWriter.new ⟨⟨data, bodyErr⟩⟩ world =
        s.invoke codecs ResponseWriter.new ⟨⟨data.take (2 ^ 24), error.nil⟩⟩ world) ∧
    (2 ^ 24 ≤ data.length →
      (codecs.UnmarshalInvokeRequest (data.take (2 ^ 24))).2 ≠ error.nil →
      (s.invoke codecs ResponseWriter.new ⟨⟨data, bodyErr⟩⟩ world).1.statusCode = some 500 ∧
      (s.invoke codecs ResponseWriter.new ⟨⟨data, bodyErr⟩⟩ world).2 = world) ∧
    (2 ^ 24 ≤ data.length →
      ∀ (req : invokeRequest) (result : Bytes) (st : σ),
        codecs.UnmarshalInvokeRequest (data.take (2 ^ 24)) = (req, error.nil) →
        s.environment.Invoke req.Namespace req.ActorID req.Operation req.Payload world.state
          = ((result, error.nil), st) →
        s.invoke codecs ResponseWriter.new ⟨⟨data, bodyErr⟩⟩ world =
          (⟨some 200, result, false⟩,
            ⟨st, world.calls ++
              [Call.EnvironmentInvoke req.Namespace req.ActorID req.Operation req.Payload]⟩)) := by
  have h24 : (2 : Nat) ^ 24 = 16777216 := by decide
  refine ⟨?_, ?_, ?_, ?_⟩
  · intro hlen
    have h := readAll_limit_of_le data bodyErr (Nat.le_of_eq hlen.symm)
    rw [List.take_of_length_le (Nat.le_of_eq (hlen.trans h24))] at h
    exact h
  · intro hlen
    apply server_invoke_read_congr
    rw [readAll_limit_of_le data bodyErr hlen, h24]
    unfold ioutil_ReadAll io_LimitReader
    split
    · rfl
    · show (List.take 16777216 data, error.nil)
        = (List.take 16777216 (List.take 16777216 data), error.nil)
      rw [List.take_take, Nat.min_self]
  · intro hlen hdec
    rw [h24] at hdec
    have hrun := server_invoke_of_decode_error s codecs ⟨⟨data, bodyErr⟩⟩ world
      (data.take 16777216) (readAll_limit_of_le data bodyErr hlen) hdec
    rw [hrun]
    exact ⟨(ResponseWriter.writeError_new _).1, rfl⟩
  · intro hlen req result st hdec hinv
    rw [h24] at hdec
    exact server_invoke_of_ok s codecs ⟨⟨data, bodyErr⟩⟩ world (data.take 16777216)
      (readAll_limit_of_le data bodyErr hlen) req hdec result st hinv

theorem C11_invoke_body_limit_witness :
    paddedInvokeBody.length = 2 ^ 24 ∧
    ioutil_ReadAll (io_LimitReader ⟨paddedInvokeBody, error.errorString "unexpected EOF"⟩
      (1 <<< 24)) = (paddedInvokeBody, error.nil) :=
  ⟨paddedInvokeBody_length,
    (C11_invoke_body_limit sampleServer paddedCodecs paddedInvokeBody
      (error.errorString "unexpected EOF") ⟨⟨1, []⟩, []⟩).1 paddedInvokeBody_length⟩

/-! ## Theorems: activation and `actor.create` -/

/-- C12: startup precedes any other operation. `newActivatedActor` makes exactly
one call, the invocation of the reserved operation `__startup__` with a nil
payload on the actor, and nothing before it. It returns an `activatedActor`
holding that actor with the given generation, and a nil error, if and only if
that invocation succeeds; when the invocation fails it returns the zero
`activatedActor` and an error wrapping the failure. -/
theorem C12_newActivatedActor_startup {σ : Type} (actor : Actor σ) (generation : Nat)
    (w : World σ) (res : Bytes) (err : error) (st : σ)
    (hstart : actor.Invoke "__startup__" [] w.state = ((res, err), st)) :
    (newActivatedActor actor generation w).2 =
      ⟨st, w.calls ++ [Call.ActorInvoke "__startup__" []]⟩ ∧
    (err = error.nil →
      (newActivatedActor actor generation w).1 = (⟨some actor, generation⟩, error.nil)) ∧
    (err ≠ error.nil →
      (newActivatedActor actor generation w).1 =
        (⟨none, 0⟩, Errorf_w "newActivatedActor: error invoking startup function: " err "") ∧
      (newActivatedActor actor generation w).1.2 ≠ error.nil) ∧
    (((newActivatedActor actor generation w).1.1.a = some actor ∧
        (newActivatedActor actor generation w).1.1.generation = generation ∧
        (newActivatedActor actor generation w).1.2 = error.nil) ↔ err = error.nil) := by
  have hne := Errorf_w_ne_nil "newActivatedActor: error invoking startup function: " "" err
  by_cases he : err = error.nil
  · subst he
    have hrun : newActivatedActor actor generation w =
        ((⟨some actor, generation⟩, error.nil),
          ⟨st, w.calls ++ [Call.ActorInvoke "__startup__" []]⟩) := by
      simp [newActivatedActor, World.call, hstart, StartupOperationName]
    rw [hrun]
    exact ⟨rfl, fun _ => rfl, fun h => absurd rfl h, fun _ => rfl, fun _ => ⟨rfl, rfl, rfl⟩⟩
  · have hrun : newActivatedActor actor generation w =
        ((⟨none, 0⟩, Errorf_w "newActivatedActor: error invoking startup function: " err ""),
          ⟨st, w.calls ++ [Call.ActorInvoke "__startup__" []]⟩) := by
      simp [newActivatedActor, World.call, hstart, he, StartupOperationName]
    rw [hrun]
    refine ⟨rfl, fun h => absurd h he, fun _ => ⟨rfl, hne⟩, fun h => ?_, fun h => absurd h he⟩
    exact absurd h.2.2 hne

theorem C12_newActivatedActor_startup_witness :
    sampleActor.Invoke "__startup__" [] 1 = (([], error.nil), 2) ∧
    (newActivatedActor sampleActor 7 ⟨1, []⟩).2 = ⟨2, [] ++ [Call.ActorInvoke "__startup__" []]⟩ ∧
    (newActivatedActor sampleActor 7 ⟨1, []⟩).1 = (⟨some sampleActor, 7⟩, error.nil) :=
  ⟨rfl, (C12_newActivatedActor_startup sampleActor 7 ⟨1, []⟩ [] error.nil 2 rfl).1,
    (C12_newActivatedActor_startup sampleActor 7 ⟨1, []⟩ [] error.nil 2 rfl).2.1 rfl⟩

/-- C13: the host function `actor.create`, called by an actor of namespace
`actorNamespace` and module `actorModuleID` (with its non-empty actor ID in
the context). When the payload decodes, `registry.CreateActor` is called
exactly once, with that namespace, the requested actor ID, and the requested
module ID when it is non-empty, the caller's own module ID when it is empty or
omitted; the host call returns nil (and no bytes) when `CreateActor` succeeds
and an error when it fails. When the payload is malformed the host call
returns an error and the registry is not called. -/
theorem C13_actor_create_fork {σ : Type} (codecs : Codecs) (reg : Registry σ)
    (environment : Environment σ) (customHostFns : String → Option (Bytes → Bytes × error))
    (actorNamespace actorModuleID actorID wapcBinding wapcNamespace : String)
    (payload : Bytes) (w : World σ) (hid : actorID ≠ "")
    (req : CreateActorRequest) (decErr : error)
    (hdec : codecs.UnmarshalCreateActorRequest payload = (req, decErr))
    (err : error) (st : σ)
    (hcreate : reg.CreateActor actorNamespace req.ActorID
      (if req.ModuleID = "" then actorModuleID else req.ModuleID) w.state = (err, st)) :
    (decErr ≠ error.nil →
      (newHostFnRouter codecs reg environment customHostFns actorNamespace actorModuleID
        (CtxValue.string actorID) wapcBinding wapcNamespace CreateActorOperationName payload w)
        = (([], Errorf_w "error unmarshaling CreateActorRequest: " decErr ""), w) ∧
      Errorf_w "error unmarshaling CreateActorRequest: " decErr "" ≠ error.nil) ∧
    (decErr = error.nil →
      (newHostFnRouter codecs reg environment customHostFns actorNamespace actorModuleID
        (CtxValue.string actorID) wapcBinding wapcNamespace CreateActorOperationName payload w).2
        = ⟨st, w.calls ++ [Call.CreateActor actorNamespace req.ActorID
            (if req.ModuleID = "" then actorModuleID else req.ModuleID)]⟩ ∧
      (err = error.nil →
        (newHostFnRouter codecs reg environment customHostFns actorNamespace actorModuleID
          (CtxValue.string actorID) wapcBinding wapcNamespace CreateActorOperationName payload
          w).1 = ([], error.nil)) ∧
      (err ≠ error.nil →
        (newHostFnRouter codecs reg environment customHostFns actorNamespace actorModuleID
          (CtxValue.string actorID) wapcBinding wapcNamespace CreateActorOperationName payload
          w).1 = ([], Errorf_w "error creating new actor in registry: " err "") ∧
        Errorf_w "error creating new actor in registry: " err "" ≠ error.nil)) := by
  have hput : CreateActorOperationName ≠ KVPutOperationName := by decide
  have hgetn : CreateActorOperationName ≠ KVGetOperationName := by decide
  refine ⟨fun hd => ⟨?_, Errorf_w_ne_nil _ _ _⟩, fun hd => ?_⟩
  · simp [newHostFnRouter, hid, hput, hgetn, hdec, hd]
  · subst hd
    by_cases hm : req.ModuleID = ""
    · rw [if_pos hm] at hcreate
      rw [if_pos hm]
      by_cases he : err = error.nil
      · subst he
        simp [newHostFnRouter, hid, hput, hgetn, hdec, hm, World.call, hcreate]
      · have hne := Errorf_w_ne_nil "error creating new actor in registry: " "" err
        simp [newHostFnRouter, hid, hput, hgetn, hdec, hm, World.call, hcreate, he, hne]
    · rw [if_neg hm] at hcreate
      rw [if_neg hm]
      by_cases he : err = error.nil
      · subst he
        simp [newHostFnRouter, hid, hput, hgetn, hdec, hm, World.call, hcreate]
      · have hne := Errorf_w_ne_nil "error creating new actor in registry: " "" err
        simp [newHostFnRouter, hid, hput, hgetn, hdec, hm, World.call, hcreate, he, hne]

theorem C13_actor_create_fork_witness :
    ("a" : String) ≠ "" ∧
    forkCodecs.UnmarshalCreateActorRequest [0] = (⟨"b", ""⟩, error.nil) ∧
    (sampleRegistry [] error.nil).CreateActor "ns" "b" "m" 3 = (error.nil, 3) ∧
    (newHostFnRouter forkCodecs (sampleRegistry [] error.nil) idleEnvironment (fun _ => none)
      "ns" "m" (CtxValue.string "a") "b" "n" CreateActorOperationName [0] ⟨3, []⟩).2
      = ⟨3, [] ++ [Call.CreateActor "ns" "b" "m"]⟩ :=
  ⟨by decide, rfl, rfl,
    ((C13_actor_create_fork forkCodecs (sampleRegistry [] error.nil) idleEnvironment
      (fun _ => none) "ns" "m" "a" "b" "n" [0] ⟨3, []⟩ (by decide) ⟨"b", ""⟩ error.nil rfl
      error.nil 3 rfl).2 rfl).1⟩

/-! ## Theorems: the responses of the invoke handler -/

theorem readAll_limit_eq (b : Reader) :
    ioutil_ReadAll (io_LimitReader b 16777216) =
      (b.data.take 16777216, if b.data.length < 16777216 then b.err else error.nil) := by
  unfold ioutil_ReadAll io_LimitReader
  by_cases h : b.data.length < 16777216
  · rw [if_pos h, if_pos h, List.take_of_length_le (Nat.le_of_lt h)]
  · rw [if_neg h, if_neg h]

theorem sampleServer_invoke_oversized :
    sampleServer.invoke paddedCodecs ResponseWriter.new (sampleRequest oversizedInvokeBody)
      ⟨⟨1, []⟩, []⟩ =
      (⟨some 200, [1, 2], false⟩,
        ⟨⟨2, [Call.EnsureActivation "ns" "a",
          Call.activationsInvoke (sampleReference .ReferenceTypeLocal) "op" [1, 2]]⟩,
          [Call.EnvironmentInvoke "ns" "a" "op" [1, 2]]⟩) := by
  have hlen : (2 : Nat) ^ 24 ≤ oversizedInvokeBody.length := by
    rw [oversizedInvokeBody_length]
    exact Nat.le_succ _
  have hpad : paddedInvokeBody.length = 16777216 := by
    rw [paddedInvokeBody_length]
    norm_num
  have htake : oversizedInvokeBody.take 16777216 = paddedInvokeBody := by
    unfold oversizedInvokeBody
    exact List.take_left' hpad
  have hread : ioutil_ReadAll (io_LimitReader (sampleRequest oversizedInvokeBody).Body 16777216)
      = (paddedInvokeBody, error.nil) := by
    have h := readAll_limit_of_le oversizedInvokeBody error.nil hlen
    rw [htake] at h
    exact h
  exact server_invoke_of_ok sampleServer paddedCodecs (sampleRequest oversizedInvokeBody)
    ⟨⟨1, []⟩, []⟩ paddedInvokeBody hread ⟨"ns", "a", "op", [1, 2]⟩
    paddedCodecs_paddedInvokeBody [1, 2]
    ⟨2, [Call.EnsureActivation "ns" "a",
      Call.activationsInvoke (sampleReference .ReferenceTypeLocal) "op" [1, 2]]⟩ rfl

/-- C6, as the claim states it, fails: the body `oversizedInvokeBody` reads
without error and does not parse as an invoke request (a letter follows the
JSON value), yet the handler answers with status 200: it has parsed the first
16 MiB of the body only. -/
theorem C6_unparsed_body_counterexample :
    (sampleRequest oversizedInvokeBody).Body.err = error.nil ∧
    (paddedCodecs.UnmarshalInvokeRequest (sampleRequest oversizedInvokeBody).Body.data).2
      ≠ error.nil ∧
    (sampleServer.invoke paddedCodecs ResponseWriter.new (sampleRequest oversizedInvokeBody)
      ⟨⟨1, []⟩, []⟩).1.statusCode = some 200 := by
  refine ⟨rfl, paddedCodecs_oversizedInvokeBody, ?_⟩
  rw [sampleServer_invoke_oversized]

/-- C6, amended: the handler of `/api/v1/invoke` parses the first 2^24 bytes of
the body, which are the whole body when it has at most 16 MiB. The body is
unreadable when it ends before 2^24 bytes with an error. Name `(req, decErr)`
what decoding those first bytes yields and `((result, err), st)` what
`Environment.Invoke` yields on the fields of `req`. The status is 200 if and
only if the body is readable, its first 2^24 bytes parse and `Invoke`
succeeds, and then the response body is exactly `result`, after the one call
of `Invoke` on `(namespace, actor_id, operation, payload)`. Every failure
(body unreadable, JSON malformed, `Invoke` error) is answered with status 500
and with the text of the error's `Error()` as body; `Invoke` is not called
when the body is unreadable or malformed. -/
theorem C6_invoke_handler_responses {σ : Type} (s : server σ) (codecs : Codecs)
    (r : Request) (world : World σ)
    (req : invokeRequest) (decErr : error)
    (hdec : codecs.UnmarshalInvokeRequest (r.Body.data.take (2 ^ 24)) = (req, decErr))
    (result : Bytes) (err : error) (st : σ)
    (hinv : s.environment.Invoke req.Namespace req.ActorID req.Operation req.Payload
      world.state = ((result, err), st)) :
    ((s.invoke codecs ResponseWriter.new r world).1.statusCode = some 200 ↔
      (r.Body.data.length < 2 ^ 24 → r.Body.err = error.nil) ∧
        decErr = error.nil ∧ err = error.nil) ∧
    ((r.Body.data.length < 2 ^ 24 → r.Body.err = error.nil) →
      decErr = error.nil → err = error.nil →
      s.invoke codecs ResponseWriter.new r world =
        (⟨some 200, result, false⟩,
          ⟨st, world.calls ++
            [Call.EnvironmentInvoke req.Namespace req.ActorID req.Operation req.Payload]⟩)) ∧
    (r.Body.data.length < 2 ^ 24 → r.Body.err ≠ error.nil →
      s.invoke codecs ResponseWriter.new r world =
        (ResponseWriter.new.writeError r.Body.err, world)) ∧
    ((r.Body.data.length < 2 ^ 24 → r.Body.err = error.nil) → decErr ≠ error.nil →
      s.invoke codecs ResponseWriter.new r world =
        (ResponseWriter.new.writeError decErr, world)) ∧
    ((r.Body.data.length < 2 ^ 24 → r.Body.err = error.nil) →
      decErr = error.nil → err ≠ error.nil →
      s.invoke codecs ResponseWriter.new r world =
        (ResponseWriter.new.writeError err,
          ⟨st, world.calls ++
            [Call.EnvironmentInvoke req.Namespace req.ActorID req.Operation req.Payload]⟩)) ∧
    (∀ e : error, (ResponseWriter.new.writeError e).statusCode = some 500 ∧
      ∀ text, e.Error = some text →
        ResponseWriter.new.writeError e = ⟨some 500, stringBytes text, false⟩) ∧
    (r.Body.data.length ≤ 2 ^ 24 → r.Body.data.take (2 ^ 24) = r.Body.data) := by
  have h24 : (2 : Nat) ^ 24 = 16777216 := by decide
  rw [h24] at hdec
  simp only [h24]
  have hnil : (if r.Body.data.length < 16777216 then r.Body.err else error.nil) = error.nil ↔
      (r.Body.data.length < 16777216 → r.Body.err = error.nil) := by
    by_cases h : r.Body.data.length < 16777216
    · rw [if_pos h]
      exact ⟨fun h1 _ => h1, fun h1 => h1 h⟩
    · rw [if_neg h]
      exact ⟨fun _ h1 => absurd h1 h, fun _ => rfl⟩
  have H := server_invoke_responses_of_read s codecs r world (r.Body.data.take 16777216)
    (if r.Body.data.length < 16777216 then r.Body.err else error.nil)
    (readAll_limit_eq r.Body) req decErr hdec result err st hinv
  refine ⟨?_, ?_, ?_, ?_, ?_, H.2.2.2.2.2.1, ?_⟩
  · rw [H.1, hnil]
  · intro h1 h2 h3
    exact H.2.1 (hnil.mpr h1) h2 h3
  · intro hlt hne
    have hA := H.2.2.1
    rw [if_pos hlt] at hA
    exact hA hne
  · intro h1 h2
    exact H.2.2.2.1 (hnil.mpr h1) h2
  · intro h1 h2 h3
    exact H.2.2.2.2.1 (hnil.mpr h1) h2 h3
  · intro hlen
    exact List.take_of_length_le hlen

theorem C6_invoke_handler_responses_witness :
    sampleCodecs.UnmarshalInvokeRequest
      ((sampleRequest sampleInvokeBody).Body.data.take (2 ^ 24))
      = (⟨"ns", "a", "op", [1, 2]⟩, error.nil) ∧
    sampleServer.environment.Invoke "ns" "a" "op" [1, 2] ⟨1, []⟩ =
      (([1, 2], error.nil), ⟨2, [Call.EnsureActivation "ns" "a",
        Call.activationsInvoke (sampleReference .ReferenceTypeLocal) "op" [1, 2]]⟩) ∧
    ((sampleRequest sampleInvokeBody).Body.data.length < 2 ^ 24 →
      (sampleRequest sampleInvokeBody).Body.err = error.nil) ∧
    (sampleServer.invoke sampleCodecs ResponseWriter.new (sampleRequest sampleInvokeBody)
      ⟨⟨1, []⟩, []⟩).1 = ⟨some 200, [1, 2], false⟩ :=
  ⟨by decide, rfl, fun _ => rfl,
    congrArg Prod.fst ((C6_invoke_handler_responses sampleServer sampleCodecs
      (sampleRequest sampleInvokeBody) ⟨⟨1, []⟩, []⟩
      ⟨"ns", "a", "op", [1, 2]⟩ error.nil (by decide) [1, 2] error.nil
      ⟨2, [Call.EnsureActivation "ns" "a",
        Call.activationsInvoke (sampleReference .ReferenceTypeLocal) "op" [1, 2]]⟩
      rfl).2.1 (fun _ => rfl) rfl rfl)⟩

end Nola
